import Mathlib

/-!
Verification of the Föhn-effect analysis dashboard.

The development embeds the computational core of `app.py` (the Streamlit
dashboard) and of `src/thermodynamic_analysis.py` (the documented Madeira
reference analysis).  Pressures are in hPa, mixing ratios in g/kg unless
noted; temperatures carry an explicit convention (°C at the user boundary,
Kelvin inside the adiabatic computations, as in the underlying physics
library).  The library's closed-form relations (Poisson's equation for the
dry adiabat, Bolton's saturation vapor pressure, the vapor-pressure and
mixing-ratio conversions, the fixed-point LCL iteration) are embedded
directly; the saturated-adiabat ODE integration is embedded as a fixed-grid
Euler integration of the library's lapse-rate integrand over the same
50-point pressure grid the dashboard constructs with `np.linspace`.
Validation failures (`st.sidebar.error` followed by `st.stop()`) and the
division-by-zero failure mode of the metrics are embedded as the error
branch of `Except InvalidInputError`.
-/

namespace Foehn

noncomputable section

/-- Gas constant of dry air in J/(kg·K): universal gas constant over the
molecular weight of dry air, as the physics library defines it. -/
def Rd : ℝ := 8314.462618 / 28.96546

/-- Specific heat of dry air at constant pressure, J/(kg·K); the library
defines it as `3.5 * Rd`. -/
def Cp_d : ℝ := 3.5 * Rd

/-- Latent heat of vaporization of water, J/kg. -/
def Lv : ℝ := 2500840

/-- Ratio of the molecular weight of water vapor to that of dry air. -/
def epsilon : ℝ := 18.015268 / 28.96546

/-- Poisson exponent `Rd / Cp_d` (≈ 0.2857). -/
def kappa : ℝ := Rd / Cp_d

/-- Bolton's saturation vapor pressure (hPa) at a temperature given in °C:
`6.112 * exp(17.67 t / (t + 243.5))`. -/
def saturation_vapor_pressure (t : ℝ) : ℝ :=
  6.112 * Real.exp (17.67 * t / (t + 243.5))

/-- Partial vapor pressure (hPa) from total pressure `p` (hPa) and mixing
ratio `w` (kg/kg): `p w / (epsilon + w)`. -/
def vapor_pressure (p w : ℝ) : ℝ := p * w / (epsilon + w)

/-- Mixing ratio (kg/kg) from a partial pressure `e` and total pressure `p`:
`epsilon e / (p - e)`. -/
def mixing_ratio (e p : ℝ) : ℝ := epsilon * e / (p - e)

/-- Dewpoint in °C from a vapor pressure `e` in hPa: the inverse of Bolton's
formula, `243.5 ln(e/6.112) / (17.67 - ln(e/6.112))`. -/
def dewpoint (e : ℝ) : ℝ :=
  243.5 * Real.log (e / 6.112) / (17.67 - Real.log (e / 6.112))

/-- Specific humidity from mixing ratio (both kg/kg): `w / (1 + w)`. -/
def specific_humidity_from_mixing_ratio (w : ℝ) : ℝ := w / (1 + w)

/-- Mixing ratio from specific humidity (both kg/kg): `q / (1 - q)`. -/
def mixing_ratio_from_specific_humidity (q : ℝ) : ℝ := q / (1 - q)

/-- Relative humidity (dimensionless, 0–1) from temperature and dewpoint in
°C: the ratio of the saturation vapor pressure at the dewpoint to the one at
the temperature. -/
def relative_humidity_from_dewpoint (t td : ℝ) : ℝ :=
  saturation_vapor_pressure td / saturation_vapor_pressure t

/-- Dry adiabatic (Poisson) end temperature in Kelvin: the value the
library's `dry_lapse` returns at the last entry of the pressure array
`linspace(start_p, end_p, 50)`, with the first entry as reference pressure:
`T (end_p / start_p) ^ kappa`. -/
def dry_lapse (start_p end_p tK : ℝ) : ℝ := tK * (end_p / start_p) ^ kappa

/-- Saturation mixing ratio (kg/kg) at pressure `p` (hPa) and temperature
`tK` (Kelvin). -/
def saturation_mixing_ratio (p tK : ℝ) : ℝ :=
  mixing_ratio (saturation_vapor_pressure (tK - 273.15)) p

/-- The saturated-adiabat integrand `dT/dp` of the library's `moist_lapse`:
`((Rd T + Lv rs) / (Cp_d + Lv² rs epsilon / (Rd T²))) / p`. -/
def moist_lapse_rate (p tK : ℝ) : ℝ :=
  (Rd * tK + Lv * saturation_mixing_ratio p tK) /
    (Cp_d + Lv * Lv * saturation_mixing_ratio p tK * epsilon / (Rd * tK * tK)) / p

/-- Fixed-grid Euler integration of a lapse-rate field `f`, taking `n` steps
of pressure increment `h` starting from pressure `p` and temperature `tK`. -/
def euler_integrate (f : ℝ → ℝ → ℝ) : ℕ → ℝ → ℝ → ℝ → ℝ
  | 0, _, _, tK => tK
  | n + 1, p, h, tK => euler_integrate f n (p + h) h (tK + h * f p tK)

/-- Moist adiabatic end temperature in Kelvin: numerical integration of the
saturated lapse rate along the 50-point grid `linspace(start_p, end_p, 50)`
that the dashboard passes to `moist_lapse` (49 Euler steps). -/
def moist_lapse (start_p end_p tK : ℝ) : ℝ :=
  euler_integrate moist_lapse_rate 49 start_p ((end_p - start_p) / 49) tK

/-- One step of the library's LCL fixed-point iteration: from the current
pressure guess `p`, recover the dewpoint of the conserved mixing ratio `w`
and move to `p0 ((Td_K / T_K) ^ (1/kappa))`. -/
def lcl_next (p0 w tK p : ℝ) : ℝ :=
  p0 * ((dewpoint (vapor_pressure p w) + 273.15) / tK) ^ (1 / kappa)

/-- The LCL fixed-point iteration run for a bounded number of rounds,
starting from the surface pressure. -/
def lcl_iterate (p0 w tK : ℝ) : ℕ → ℝ → ℝ
  | 0, p => p
  | n + 1, p => lcl_iterate p0 w tK n (lcl_next p0 w tK p)

/-- The library's `lcl`: surface pressure in hPa, temperature and dewpoint in
°C; returns the LCL pressure (hPa) and LCL temperature (Kelvin), obtained by
iterating the fixed-point map from the surface pressure. -/
def lcl (p0 t td : ℝ) : ℝ × ℝ :=
  let w := mixing_ratio (saturation_vapor_pressure td) p0
  let pl := lcl_iterate p0 w (t + 273.15) 50 p0
  (pl, dewpoint (vapor_pressure pl w) + 273.15)

/-- The six scalar inputs the dashboard's sidebar collects. -/
structure Inputs where
  north_pressure : ℝ
  north_temp : ℝ
  north_dewpoint : ℝ
  north_mixing_ratio : ℝ
  summit_pressure : ℝ
  south_pressure : ℝ

/-- The invalid-input failure mode: the dashboard reports a sidebar error
message and stops before producing any result. -/
structure InvalidInputError where
  msg : String

/-- The computed Föhn profile: LCL, summit, descent-LCL and leeward states
(temperatures in Kelvin except the leeward dewpoint, which the conversion
chain yields in °C; the summit mixing ratio is in g/kg). -/
structure FoehnProfile where
  lcl_pressure : ℝ
  lcl_temp : ℝ
  summit_temp : ℝ
  summit_mixing_ratio : ℝ
  lcl_descent_pressure : ℝ
  lcl_descent_temp : ℝ
  south_temp : ℝ
  south_dewpoint : ℝ

/-- The profile computation of `app.py` lines 180–214: ascent LCL, moist
ascent to the summit, 50% moisture loss, descent LCL at the pressure
midpoint, moist descent, dry descent, and the leeward dewpoint recovered
from the retained mixing ratio via the specific-humidity conversions. -/
def mkProfile (i : Inputs) : FoehnProfile :=
  let lclPoint := lcl i.north_pressure i.north_temp i.north_dewpoint
  let summit_temp_calc := moist_lapse lclPoint.1 i.summit_pressure lclPoint.2
  let summit_mixing_ratio := i.north_mixing_ratio * 0.5
  let lcl_descent_pressure := (i.summit_pressure + i.south_pressure) / 2
  let lcl_descent_temp := moist_lapse i.summit_pressure lcl_descent_pressure summit_temp_calc
  let south_temp_calc := dry_lapse lcl_descent_pressure i.south_pressure lcl_descent_temp
  let south_dewpoint_calc := dewpoint (vapor_pressure i.south_pressure
    (mixing_ratio_from_specific_humidity
      (specific_humidity_from_mixing_ratio (summit_mixing_ratio / 1000))))
  { lcl_pressure := lclPoint.1
    lcl_temp := lclPoint.2
    summit_temp := summit_temp_calc
    summit_mixing_ratio := summit_mixing_ratio
    lcl_descent_pressure := lcl_descent_pressure
    lcl_descent_temp := lcl_descent_temp
    south_temp := south_temp_calc
    south_dewpoint := south_dewpoint_calc }

/-- The dashboard's validation gate followed by the profile computation
(`app.py` lines 151–157 then 180–214).  The two `st.stop()` paths become the
error branch; the checks run in source order, before any thermodynamic
computation. -/
def runEngine (i : Inputs) : Except InvalidInputError FoehnProfile :=
  if i.north_dewpoint > i.north_temp then
    Except.error ⟨"WARNING: Dewpoint cannot exceed temperature"⟩
  else if i.summit_pressure ≥ i.north_pressure then
    Except.error ⟨"WARNING: Summit pressure must be less than surface pressure"⟩
  else
    Except.ok (mkProfile i)

/-- The derived Föhn metrics displayed by the dashboard (`app.py` lines
293–327): temperature increase in °C, final relative humidity in percent,
moisture loss in g/kg and as a percentage of the windward mixing ratio. -/
structure FoehnMetrics where
  temp_increase : ℝ
  final_rh : ℝ
  moisture_loss : ℝ
  moisture_loss_pct : ℝ

/-- The derived-metrics computation: pure arithmetic over the profile's
terminal points, except that forming the moisture-loss percentage divides by
the windward mixing ratio — in the source an unguarded float division that
fails when the windward mixing ratio is zero. -/
def computeMetrics (i : Inputs) (pr : FoehnProfile) : Except InvalidInputError FoehnMetrics :=
  let temp_increase := (pr.south_temp - 273.15) - i.north_temp
  let final_rh := relative_humidity_from_dewpoint (pr.south_temp - 273.15) pr.south_dewpoint * 100
  let moisture_loss := i.north_mixing_ratio - pr.summit_mixing_ratio
  if i.north_mixing_ratio = 0 then
    Except.error ⟨"float division by zero"⟩
  else
    Except.ok
      { temp_increase := temp_increase
        final_rh := final_rh
        moisture_loss := moisture_loss
        moisture_loss_pct := moisture_loss / i.north_mixing_ratio * 100 }

/-- The full dashboard computation.  `app.py` line 148 binds the Run
Analysis button's value to `analyze_button` and never reads it afterwards;
it is carried here as an explicit, unused argument. -/
def runDashboard (i : Inputs) (analyze_button : Bool) :
    Except InvalidInputError (FoehnProfile × FoehnMetrics) := do
  let pr ← runEngine i
  let m ← computeMetrics i pr
  return (pr, m)

end

/-- C10: the dashboard's computed outputs are identical in two runs that
agree on the six scalar inputs but differ in the Run Analysis button's
value — the button is bound at `app.py` line 148 and never read, so the
analysis and every displayed metric are independent of it. -/
theorem claim_C10_button_independent (i : Inputs) (b1 b2 : Bool) :
    runDashboard i b1 = runDashboard i b2 := rfl

/-- C6: for every input with dewpoint strictly above temperature, the engine
fails with the invalid-input error of the dewpoint check — the first check
in source order, before any adiabatic computation — and returns no partial
result. -/
theorem claim_C6_dewpoint_validation (i : Inputs) (h : i.north_temp < i.north_dewpoint) :
    runEngine i = Except.error ⟨"WARNING: Dewpoint cannot exceed temperature"⟩ := by
  unfold runEngine
  rw [if_pos h]

/-- Witness for C6 at dewpoint 25 °C above temperature 20 °C. -/
theorem claim_C6_witness :
    (20 : ℝ) < 25 ∧
      runEngine ⟨1000, 20, 25, 8, 400, 1000⟩ =
        Except.error ⟨"WARNING: Dewpoint cannot exceed temperature"⟩ :=
  ⟨by norm_num, claim_C6_dewpoint_validation ⟨1000, 20, 25, 8, 400, 1000⟩ (by norm_num)⟩

/-- C1, counterexample to the claim as stated: with summit pressure 950 hPa
at or above the south (leeward) surface pressure 900 hPa but below the north
surface pressure 1000 hPa, the profile computation does not fail — the
source validates the summit pressure only against the north pressure. -/
theorem claim_C1_counterexample :
    (900 : ℝ) ≤ 950 ∧
      runEngine ⟨1000, 20, 10.5, 8, 950, 900⟩ =
        Except.ok (mkProfile ⟨1000, 20, 10.5, 8, 950, 900⟩) := by
  refine ⟨by norm_num, ?_⟩
  unfold runEngine
  rw [if_neg (show ¬((20 : ℝ) < 10.5) by norm_num),
    if_neg (show ¬((1000 : ℝ) ≤ 950) by norm_num)]

/-- C1 as amended: for every input with summit pressure at or above the
north (windward) surface pressure, the profile computation fails with an
invalid-input error before any thermodynamic computation; the symmetric
condition against the south surface pressure is not checked. -/
theorem claim_C1_amended_validation (i : Inputs) (h : i.north_pressure ≤ i.summit_pressure) :
    ∃ e, runEngine i = Except.error e := by
  unfold runEngine
  by_cases hd : i.north_temp < i.north_dewpoint
  · exact ⟨_, by rw [if_pos hd]⟩
  · exact ⟨_, by rw [if_neg hd, if_pos h]⟩

/-- Witness for the amended C1 at summit pressure equal to the north
surface pressure. -/
theorem claim_C1_witness :
    (1000 : ℝ) ≤ 1000 ∧ ∃ e, runEngine ⟨1000, 20, 10.5, 8, 1000, 900⟩ = Except.error e :=
  ⟨le_refl _, claim_C1_amended_validation ⟨1000, 20, 10.5, 8, 1000, 900⟩ (le_refl _)⟩

/-- C3: for every input passing validation the engine succeeds, and the
summit mixing ratio of the computed profile is 50% of the windward (north)
mixing ratio — the fixed moisture-loss fraction of the source. -/
theorem claim_C3_summit_mixing (i : Inputs) (h1 : i.north_dewpoint ≤ i.north_temp)
    (h2 : i.summit_pressure < i.north_pressure) :
    runEngine i = Except.ok (mkProfile i) ∧
      (mkProfile i).summit_mixing_ratio = 0.5 * i.north_mixing_ratio := by
  constructor
  · unfold runEngine
    rw [if_neg (not_lt.mpr h1), if_neg (not_le.mpr h2)]
  · show i.north_mixing_ratio * 0.5 = 0.5 * i.north_mixing_ratio
    ring

/-- Witness for C3 at the Madeira default inputs. -/
theorem claim_C3_witness :
    ((10.5 : ℝ) ≤ 20 ∧ (400 : ℝ) < 1000) ∧
      runEngine ⟨1000, 20, 10.5, 8, 400, 1000⟩ =
          Except.ok (mkProfile ⟨1000, 20, 10.5, 8, 400, 1000⟩) ∧
        (mkProfile ⟨1000, 20, 10.5, 8, 400, 1000⟩).summit_mixing_ratio =
          0.5 * (⟨1000, 20, 10.5, 8, 400, 1000⟩ : Inputs).north_mixing_ratio :=
  ⟨⟨by norm_num, by norm_num⟩,
    claim_C3_summit_mixing ⟨1000, 20, 10.5, 8, 400, 1000⟩ (by norm_num) (by norm_num)⟩

/-- C4: for every input passing validation the engine succeeds, and the
leeward (descent) LCL pressure of the computed profile is the arithmetic
midpoint of the summit and south surface pressures. -/
theorem claim_C4_descent_lcl_midpoint (i : Inputs) (h1 : i.north_dewpoint ≤ i.north_temp)
    (h2 : i.summit_pressure < i.north_pressure) :
    runEngine i = Except.ok (mkProfile i) ∧
      (mkProfile i).lcl_descent_pressure = (i.summit_pressure + i.south_pressure) / 2 := by
  constructor
  · unfold runEngine
    rw [if_neg (not_lt.mpr h1), if_neg (not_le.mpr h2)]
  · show (i.summit_pressure + i.south_pressure) / 2 = (i.summit_pressure + i.south_pressure) / 2
    rfl

/-- Witness for C4 at the Madeira default inputs. -/
theorem claim_C4_witness :
    ((10.5 : ℝ) ≤ 20 ∧ (400 : ℝ) < 1000) ∧
      runEngine ⟨1000, 20, 10.5, 8, 400, 1000⟩ =
          Except.ok (mkProfile ⟨1000, 20, 10.5, 8, 400, 1000⟩) ∧
        (mkProfile ⟨1000, 20, 10.5, 8, 400, 1000⟩).lcl_descent_pressure =
          ((⟨1000, 20, 10.5, 8, 400, 1000⟩ : Inputs).summit_pressure +
            (⟨1000, 20, 10.5, 8, 400, 1000⟩ : Inputs).south_pressure) / 2 :=
  ⟨⟨by norm_num, by norm_num⟩,
    claim_C4_descent_lcl_midpoint ⟨1000, 20, 10.5, 8, 400, 1000⟩ (by norm_num) (by norm_num)⟩

/-- C5: the derived-metrics computation has a single fallible path, the
division by the windward mixing ratio: when that ratio is zero it fails with
the invalid-input error, and for every positive ratio it succeeds. -/
theorem claim_C5_metrics_fallibility (i : Inputs) (pr : FoehnProfile) :
    (i.north_mixing_ratio = 0 →
        computeMetrics i pr = Except.error ⟨"float division by zero"⟩) ∧
      (0 < i.north_mixing_ratio → ∃ m, computeMetrics i pr = Except.ok m) := by
  constructor
  · intro h
    unfold computeMetrics
    rw [if_pos h]
  · intro h
    unfold computeMetrics
    rw [if_neg (ne_of_gt h)]
    exact ⟨_, rfl⟩

/-- Witness for C5: failure at windward mixing ratio 0, success at 8 g/kg. -/
theorem claim_C5_witness :
    ((0 : ℝ) = 0 ∧
        computeMetrics ⟨1000, 20, 10.5, 0, 400, 1000⟩ ⟨0, 0, 0, 0, 0, 0, 0, 0⟩ =
          Except.error ⟨"float division by zero"⟩) ∧
      ((0 : ℝ) < 8 ∧
        ∃ m, computeMetrics ⟨1000, 20, 10.5, 8, 400, 1000⟩ ⟨0, 0, 0, 0, 0, 0, 0, 0⟩ =
          Except.ok m) :=
  ⟨⟨rfl, (claim_C5_metrics_fallibility ⟨1000, 20, 10.5, 0, 400, 1000⟩
      ⟨0, 0, 0, 0, 0, 0, 0, 0⟩).1 rfl⟩,
    ⟨by norm_num, (claim_C5_metrics_fallibility ⟨1000, 20, 10.5, 8, 400, 1000⟩
      ⟨0, 0, 0, 0, 0, 0, 0, 0⟩).2 (by norm_num)⟩⟩

/-- Euler integration with step increment zero leaves the temperature
unchanged, whatever the integrand: each step adds `0 * f p tK`. -/
theorem euler_integrate_zero_h (f : ℝ → ℝ → ℝ) :
    ∀ (n : ℕ) (p tK : ℝ), euler_integrate f n p 0 tK = tK
  | 0, _, _ => rfl
  | n + 1, p, tK => by
    rw [euler_integrate, zero_mul, add_zero, add_zero]
    exact euler_integrate_zero_h f n _ _

/-- C8: with equal start and end pressures, both the dry adiabatic operation
and the moist adiabatic operation return the input temperature unchanged. -/
theorem claim_C8_identity (p tK : ℝ) (h : 0 < p) :
    dry_lapse p p tK = tK ∧ moist_lapse p p tK = tK := by
  constructor
  · unfold dry_lapse
    rw [div_self (ne_of_gt h), Real.one_rpow, mul_one]
  · unfold moist_lapse
    rw [sub_self, zero_div]
    exact euler_integrate_zero_h _ _ _ _

/-- Witness for C8 at 1000 hPa and 293.15 K. -/
theorem claim_C8_witness :
    (0 : ℝ) < 1000 ∧ dry_lapse 1000 1000 293.15 = 293.15 ∧
      moist_lapse 1000 1000 293.15 = 293.15 :=
  ⟨by norm_num, (claim_C8_identity 1000 293.15 (by norm_num)).1,
    (claim_C8_identity 1000 293.15 (by norm_num)).2⟩

/-- C9: the dry adiabatic operation applied from `p1` to `p2` and back from
`p2` to `p1` returns the original temperature — exactly, hence within any
numerical tolerance; no direction restriction is needed. -/
theorem claim_C9_dry_round_trip (tK p1 p2 : ℝ) (h1 : 0 < p1) (h2 : 0 < p2) :
    dry_lapse p2 p1 (dry_lapse p1 p2 tK) = tK := by
  unfold dry_lapse
  have key : ((p2 / p1 : ℝ)) ^ kappa * ((p1 / p2 : ℝ)) ^ kappa = 1 := by
    rw [← Real.mul_rpow (div_nonneg h2.le h1.le) (div_nonneg h1.le h2.le),
      div_mul_div_comm, mul_comm p2 p1, div_self (mul_pos h1 h2).ne', Real.one_rpow]
  rw [mul_assoc, key, mul_one]

/-- Witness for C9 on the descent pair 1000 hPa → 700 hPa → 1000 hPa. -/
theorem claim_C9_witness :
    ((0 : ℝ) < 1000 ∧ (0 : ℝ) < 700) ∧
      dry_lapse 700 1000 (dry_lapse 1000 700 288.15) = 288.15 :=
  ⟨⟨by norm_num, by norm_num⟩,
    claim_C9_dry_round_trip 288.15 1000 700 (by norm_num) (by norm_num)⟩

end Foehn
